import Mathlib

/-!
Shallow embedding of `src/data/make_dataset.py` (class `StockData`): fetching,
shaping and persisting stock data for one ticker.

Modelling conventions:
* A pandas `DataFrame` becomes `DF`: an optional index name, a list of index
  labels, and an ordered list of named columns.
* The Alpha Vantage client objects (`TimeSeries`, `FundamentalData`) perform
  blocking remote calls; they are modelled by a `Provider` function from
  (api key, ticker) to the bundle of endpoint results, each of which is either
  provider data or a `ProviderError`.  The library returns `(data, metadata)`
  tuples; the code only uses the data component (`overview[0]`, `q_bs[0]`, ...),
  so the model carries the data components directly.
* The database behind a connection string becomes an explicit state
  `DBState : String → Option DF`; `DataFrame.to_sql(..., if_exists='replace')`
  becomes `write`, which replaces the destination table wholesale.
* Python exceptions become `Except` values: `ProviderError` for failed remote
  calls, `DataError.malformedResponse` for the `IndexError` raised by the
  positional column accesses `historical_data.columns[0..7]` when the response
  has fewer than eight columns, and `DataError.valueError` for the
  `ValueError` (`cannot insert <name>, already exists`) raised by
  `reset_index()` when the column it inserts collides with an existing column
  label.
-/

namespace StockPipeline

/-- A cell value of a table: a string, an integer (used for range indexes), or
a missing value (pandas `NaN`, produced by `from_records` for absent keys). -/
inductive Value where
  | str : String → Value
  | num : Int → Value
  | nan : Value
deriving DecidableEq, Repr, Inhabited

/-- A nested provider record: an ordered list of key/value pairs (a parsed
JSON object, so keys are unique in practice). -/
abbrev Record : Type := List (String × Value)

/-- Model of a pandas `DataFrame`: the index (row labels) with its optional
name, and the columns in order, each a name paired with its cell values. -/
structure DF where
  indexName : Option String
  index : List Value
  cols : List (String × List Value)
deriving DecidableEq, Repr, Inhabited

/-- Number of rows of a `DF` (the length of its index). -/
def DF.nRows (df : DF) : Nat := df.index.length

/-- An error raised by a remote provider call (network, auth, invalid symbol,
rate limit).  The code propagates these unchanged. -/
structure ProviderError where
  msg : String
deriving DecidableEq, Repr, Inhabited

/-- Errors that can escape `get_historical_data` / `save_to_database`:
a propagated provider error; the `IndexError` from the positional column
access when the daily-adjusted response has fewer than eight columns (the
spec's `MalformedResponseError`); or the `ValueError` pandas raises in
`reset_index()` when the column it inserts (named after the index) already
exists among the frame's columns. -/
inductive DataError where
  | providerError : ProviderError → DataError
  | malformedResponse : DataError
  | valueError : DataError
deriving DecidableEq, Repr, Inhabited

/-- The results of the five remote endpoint calls for one (api key, ticker)
pair: the daily-adjusted series and the four fundamentals datasets. -/
structure FetchResults where
  historical : Except ProviderError DF
  overview : Except ProviderError Record
  balanceSheet : Except ProviderError (List Record)
  incomeStatement : Except ProviderError (List Record)
  cashFlow : Except ProviderError (List Record)

/-- The remote provider: api key and ticker determine the endpoint results. -/
abbrev Provider : Type := String → String → FetchResults

/-- Model of the `keys` module: the module-level credential state the code
imports via `from keys import api_key`. -/
structure KeysModule where
  api_key : String
deriving DecidableEq, Repr

/-- The `StockData` object: the ticker plus the api keys captured by the two
Alpha Vantage client objects `ts` and `fd`. -/
structure StockData where
  ticker : String
  tsKey : String
  fdKey : String
deriving DecidableEq, Repr

/-- `StockData.__init__`: stores the ticker and builds the two client objects,
both keyed by the ambient module-level `api_key` (not a constructor
parameter). -/
def StockData.of (keys : KeysModule) (ticker : String) : StockData :=
  { ticker := ticker, tsKey := keys.api_key, fdKey := keys.api_key }

/-- The eight target column names assigned positionally by the `rename` call
in `get_historical_data`. -/
def histTargets : List String :=
  ["open", "high", "low", "close", "adjusted_close", "volume",
   "dividend_amount", "split_coefficient"]

/-- The dict literal `{columns[0]: 'open', ..., columns[7]: 'split_coefficient'}`:
the labels of the first eight columns zipped with the target names.  (Python
dict semantics: on duplicate labels the later binding wins; `dictGet` below
realises this by searching the reversed list.) -/
def renameMap (df : DF) : List (String × String) :=
  ((df.cols.map Prod.fst).take 8).zip histTargets

/-- Look a key up in the dict built from `ps`, later bindings overriding
earlier ones; keys not in the dict are left unchanged (pandas `rename` leaves
unmatched labels alone). -/
def dictGet (ps : List (String × String)) (k : String) : String :=
  (ps.reverse.lookup k).getD k

/-- `DataFrame.rename(columns=dict)`: every column whose label is a key of the
dict gets the dict's value for it; other labels are unchanged. -/
def renameCols (ps : List (String × String)) (df : DF) : DF :=
  { df with cols := df.cols.map (fun c => (dictGet ps c.1, c.2)) }

/-- `DataFrame.reset_index()`: the index becomes the leading column, named by
the index name (pandas defaults to `index` for a nameless index), and the new
index is the default range index `0..n-1`.  When a column with the inserted
name already exists, pandas raises `ValueError: cannot insert <name>, already
exists` instead. -/
def resetIndex (df : DF) : Except DataError DF :=
  if df.indexName.getD "index" ∈ df.cols.map Prod.fst then
    .error .valueError
  else
    .ok { indexName := none,
          index := (List.range df.nRows).map (fun i => Value.num (Int.ofNat i)),
          cols := (df.indexName.getD "index", df.index) :: df.cols }

/-- The shaping part of `get_historical_data`, applied to the data component
of `ts.get_daily_adjusted`: the positional column accesses `columns[0..7]`
raise an `IndexError` when fewer than eight columns are present; otherwise the
rename is applied and `reset_index` either succeeds or raises its
name-collision `ValueError`.  (`pd.DataFrame(data=data)` on a frame is the
identity.) -/
def shapeHistorical (data : DF) : Except DataError DF :=
  if data.cols.length < 8 then
    .error .malformedResponse
  else
    resetIndex (renameCols (renameMap data) data)

/-- `StockData.get_historical_data`: fetch the full daily-adjusted series via
the `ts` client, then rename the first eight columns positionally and reset
the index. -/
def StockData.get_historical_data (p : Provider) (sd : StockData) :
    Except DataError DF :=
  match (p sd.tsKey sd.ticker).historical with
  | .error e => .error (.providerError e)
  | .ok data => shapeHistorical data

/-- `pd.DataFrame(overview[0], index=[0])`: a single-row frame from a nested
record, one column per key. -/
def dfSingleRow (o : Record) : DF :=
  { indexName := none,
    index := [Value.num 0],
    cols := o.map (fun kv => (kv.1, [kv.2])) }

/-- Append the keys `ks` to `acc`, skipping keys already present (order of
first appearance). -/
def addKeys (acc : List String) (ks : List String) : List String :=
  ks.foldl (fun a k => if k ∈ a then a else a ++ [k]) acc

/-- The columns of `pd.DataFrame.from_records`: all record keys in order of
first appearance. -/
def keysUnion (rs : List Record) : List String :=
  rs.foldl (fun a r => addKeys a (r.map Prod.fst)) []

/-- `pd.DataFrame.from_records(rs)`: one row per record, one column per key in
order of first appearance, missing keys filled with `NaN`, default range
index. -/
def fromRecords (rs : List Record) : DF :=
  { indexName := none,
    index := (List.range rs.length).map (fun i => Value.num (Int.ofNat i)),
    cols := (keysUnion rs).map
      (fun k => (k, rs.map (fun r => (r.lookup k).getD Value.nan))) }

/-- `StockData.get_fundamental_data`: four sequential endpoint calls via the
`fd` client (overview, quarterly balance sheet, quarterly income statement,
quarterly cash flow); any failure aborts the whole fetch; each data component
is flattened to a `DataFrame`. -/
def StockData.get_fundamental_data (p : Provider) (sd : StockData) :
    Except ProviderError (DF × DF × DF × DF) :=
  match (p sd.fdKey sd.ticker).overview with
  | .error e => .error e
  | .ok overview =>
    let overview_df := dfSingleRow overview
    match (p sd.fdKey sd.ticker).balanceSheet with
    | .error e => .error e
    | .ok q_bs =>
      let bs_df := fromRecords q_bs
      match (p sd.fdKey sd.ticker).incomeStatement with
      | .error e => .error e
      | .ok q_is =>
        let is_df := fromRecords q_is
        match (p sd.fdKey sd.ticker).cashFlow with
        | .error e => .error e
        | .ok q_cf =>
          let cf_df := fromRecords q_cf
          .ok (overview_df, bs_df, is_df, cf_df)

/-- The state of the database behind a connection string: each table name is
either absent or holds a table. -/
abbrev DBState : Type := String → Option DF

/-- A SQLAlchemy engine, determined by its connection string
(`sqlalchemy.create_engine` is lazy: no connection is opened until a write). -/
abbrev Engine : Type := String

/-- `sqlalchemy.create_engine(conn_str)`. -/
def create_engine (conn_str : String) : Engine := conn_str

/-- `df.to_sql(name, engine, if_exists='replace', index=False)`: the
destination table's prior contents are discarded and fully replaced. -/
def write (db : DBState) (name : String) (t : DF) : DBState :=
  fun m => if m = name then some t else db m

/-- Apply a sequence of replace-writes left to right. -/
def applyWrites (ws : List (String × DF)) (db : DBState) : DBState :=
  ws.foldl (fun d nt => write d nt.1 nt.2) db

/-- The five destination table names, in the order `save_to_database` writes
them (string literals in the source, not derived from the ticker). -/
def tableNames : List String :=
  ["historical_data", "microsoft", "balance_sheet_data",
   "income_statement_data", "cash_flow_data"]

/-- The sequence of `to_sql` calls `save_to_database` issues once both fetches
have succeeded: destination name paired with the table written, in program
order. -/
def StockData.writeTrace (p : Provider) (sd : StockData) :
    Except DataError (List (String × DF)) :=
  match sd.get_historical_data p with
  | .error e => .error e
  | .ok historical_data =>
    match sd.get_fundamental_data p with
    | .error e => .error (.providerError e)
    | .ok (overview_df, bs_df, is_df, cf_df) =>
      .ok [("historical_data", historical_data),
           ("microsoft", overview_df),
           ("balance_sheet_data", bs_df),
           ("income_statement_data", is_df),
           ("cash_flow_data", cf_df)]

/-- `StockData.save_to_database`: create the engine, fetch and shape the
historical series, fetch and shape the four fundamentals datasets, then issue
the five replace-writes in order.  An uncaught exception leaves the database
state as it was (every fetch precedes the first write) and is returned in the
second component. -/
def StockData.save_to_database (p : Provider) (sd : StockData)
    (conn_str : String) (db : DBState) : DBState × Option DataError :=
  let _engine := create_engine conn_str
  match sd.writeTrace p with
  | .error e => (db, some e)
  | .ok ws => (applyWrites ws db, none)

/-! Concrete sample data used to exercise the definitions at particular
inputs: a keys module, tickers, provider responses in the provider's shapes,
and an empty database. -/

/-- A sample `keys` module value. -/
def demoKeys : KeysModule := ⟨"demo-api-key"⟩

/-- A second `keys` module value with a different ambient credential. -/
def otherKeys : KeysModule := ⟨"other-api-key"⟩

/-- A `StockData` constructed the way `__main__` does (`StockData('MSFT')`). -/
def sd0 : StockData := StockData.of demoKeys "MSFT"

/-- An empty database: no destination table exists yet. -/
def db0 : DBState := fun _ => none

/-- A daily-adjusted response shaped like the provider's: eight distinctly
labelled positional columns, one trading day, date index. -/
def raw8 : DF :=
  { indexName := some "date",
    index := [Value.str "2024-01-02"],
    cols := [("1. open", [Value.str "370.0"]),
             ("2. high", [Value.str "371.0"]),
             ("3. low", [Value.str "369.0"]),
             ("4. close", [Value.str "370.5"]),
             ("5. adjusted close", [Value.str "370.5"]),
             ("6. volume", [Value.str "1000"]),
             ("7. dividend amount", [Value.str "0.0"]),
             ("8. split coefficient", [Value.str "1.0"])] }

/-- A daily-adjusted response with nine positional columns, the first two
sharing a label: it satisfies "at least eight positional columns and a date
index" but defeats the positional rename. -/
def raw9 : DF :=
  { indexName := some "date",
    index := [Value.str "2024-01-02"],
    cols := [("a", [Value.num 1]), ("a", [Value.num 2]), ("c", [Value.num 3]),
             ("d", [Value.num 4]), ("e", [Value.num 5]), ("f", [Value.num 6]),
             ("g", [Value.num 7]), ("h", [Value.num 8]), ("i", [Value.num 9])] }

/-- A malformed daily-adjusted response with only two columns. -/
def rawShort : DF :=
  { indexName := some "date", index := [], cols := [("a", []), ("b", [])] }

/-- A daily-adjusted response with nine positional columns whose ninth is
labelled `date`, plus a date index: the positional accesses succeed, the
rename leaves the ninth label alone, and `reset_index` then collides with
it. -/
def rawDate9 : DF :=
  { indexName := some "date",
    index := [Value.str "2024-01-02"],
    cols := [("a", [Value.num 1]), ("b", [Value.num 2]), ("c", [Value.num 3]),
             ("d", [Value.num 4]), ("e", [Value.num 5]), ("f", [Value.num 6]),
             ("g", [Value.num 7]), ("h", [Value.num 8]),
             ("date", [Value.num 9])] }

/-- A sample company-overview record. -/
def o0 : Record := [("Name", Value.str "Microsoft")]

/-- Four quarterly balance-sheet records with identical keys. -/
def bs4 : List Record :=
  [[("fiscalDateEnding", Value.str "2024-03-31")],
   [("fiscalDateEnding", Value.str "2023-12-31")],
   [("fiscalDateEnding", Value.str "2023-09-30")],
   [("fiscalDateEnding", Value.str "2023-06-30")]]

/-- A full set of successful endpoint results. -/
def okResults : FetchResults :=
  { historical := .ok raw8, overview := .ok o0, balanceSheet := .ok bs4,
    incomeStatement := .ok [], cashFlow := .ok [] }

/-- A provider that answers every call successfully. -/
def pOK : Provider := fun _ _ => okResults

/-- A provider whose daily-adjusted response has nine columns with a
duplicated label. -/
def p9 : Provider := fun _ _ => { okResults with historical := .ok raw9 }

/-- A provider whose daily-adjusted response has fewer than eight columns. -/
def pShort : Provider := fun _ _ => { okResults with historical := .ok rawShort }

/-- A provider whose daily-adjusted response is `rawDate9`. -/
def pDate9 : Provider :=
  fun _ _ => { okResults with historical := .ok rawDate9 }

/-- A provider whose daily-adjusted call fails. -/
def pHistErr : Provider :=
  fun _ _ => { okResults with historical := .error ⟨"rate limit exceeded"⟩ }

/-- A provider whose company-overview call fails. -/
def pOvErr : Provider :=
  fun _ _ => { okResults with overview := .error ⟨"invalid symbol"⟩ }

/-- The shaped historical table obtained from `raw8`. -/
def hd8 : DF :=
  { indexName := none,
    index := [Value.num 0],
    cols := [("date", [Value.str "2024-01-02"]),
             ("open", [Value.str "370.0"]),
             ("high", [Value.str "371.0"]),
             ("low", [Value.str "369.0"]),
             ("close", [Value.str "370.5"]),
             ("adjusted_close", [Value.str "370.5"]),
             ("volume", [Value.str "1000"]),
             ("dividend_amount", [Value.str "0.0"]),
             ("split_coefficient", [Value.str "1.0"])] }

/-- The write trace produced from `okResults`. -/
def ws0 : List (String × DF) :=
  [("historical_data", hd8),
   ("microsoft", dfSingleRow o0),
   ("balance_sheet_data", fromRecords bs4),
   ("income_statement_data", fromRecords ([] : List Record)),
   ("cash_flow_data", fromRecords ([] : List Record))]

/-! ## Helper lemmas -/

/-- Mapping distinct labels through the dict built by zipping them with target
names sends the i-th label to the i-th target. -/
lemma dictGet_zip : ∀ labels : List String, ∀ targets : List String,
    labels.Nodup → labels.length = targets.length →
    labels.map (dictGet (labels.zip targets)) = targets := by
  intro labels
  induction labels with
  | nil =>
    intro targets _ hlen
    cases targets with
    | nil => rfl
    | cons t ts => simp at hlen
  | cons l ls ih =>
    intro targets hnd hlen
    cases targets with
    | nil => simp at hlen
    | cons t ts =>
      rw [List.nodup_cons] at hnd
      obtain ⟨hl, hnds⟩ := hnd
      have hlen' : ls.length = ts.length := by simpa using hlen
      have hkeys : (ls.zip ts).map Prod.fst = ls :=
        List.map_fst_zip ls ts (le_of_eq hlen')
      have hsmall_none : ((ls.zip ts).reverse).lookup l = none := by
        rw [List.lookup_eq_none_iff]
        intro q hq
        have hq1 : q.1 ∈ ls := by
          rw [← hkeys]
          exact List.mem_map_of_mem Prod.fst (List.mem_reverse.mp hq)
        simp only [bne_iff_ne, ne_eq]
        intro he
        exact hl (he ▸ hq1)
      have hrev : ((l :: ls).zip (t :: ts)).reverse = (ls.zip ts).reverse ++ [(l, t)] := by
        simp [List.zip_cons_cons]
      simp only [List.map_cons]
      congr 1
      · unfold dictGet
        rw [hrev, List.lookup_append, hsmall_none]
        simp
      · have hcong : ∀ x ∈ ls,
            dictGet ((l :: ls).zip (t :: ts)) x = dictGet (ls.zip ts) x := by
          intro x hx
          unfold dictGet
          rw [hrev, List.lookup_append]
          have hxl : (([(l, t)] : List (String × String)).lookup x) = none := by
            rw [List.lookup_eq_none_iff]
            intro q hq
            simp only [List.mem_singleton] at hq
            subst hq
            simp only [bne_iff_ne, ne_eq]
            intro he
            exact hl (he ▸ hx)
          rw [hxl, Option.or_none]
        rw [List.map_congr_left hcong]
        exact ih ts hnds hlen'

/-- A name not written by any element of `ws` keeps its prior contents. -/
lemma applyWrites_not_mem (ws : List (String × DF)) (db : DBState) (n : String)
    (h : n ∉ ws.map Prod.fst) : applyWrites ws db n = db n := by
  induction ws generalizing db with
  | nil => rfl
  | cons w ws ih =>
    simp only [List.map_cons, List.mem_cons, not_or] at h
    obtain ⟨h1, h2⟩ := h
    show applyWrites ws (write db w.1 w.2) n = db n
    rw [ih (write db w.1 w.2) h2]
    simp [write, h1]

/-- The contents of a written name do not depend on the prior database state:
each write fully replaces the destination. -/
lemma applyWrites_mem_indep (ws : List (String × DF)) (db db' : DBState) (n : String)
    (h : n ∈ ws.map Prod.fst) : applyWrites ws db n = applyWrites ws db' n := by
  induction ws generalizing db db' with
  | nil => simp at h
  | cons w ws ih =>
    show applyWrites ws (write db w.1 w.2) n = applyWrites ws (write db' w.1 w.2) n
    by_cases hm : n ∈ ws.map Prod.fst
    · exact ih (write db w.1 w.2) (write db' w.1 w.2) hm
    · simp only [List.map_cons, List.mem_cons] at h
      rcases h with h | h
      · rw [applyWrites_not_mem ws _ n hm, applyWrites_not_mem ws _ n hm]
        simp [write, h]
      · exact absurd h hm

/-- Re-applying the same write sequence is a no-op. -/
lemma applyWrites_self (ws : List (String × DF)) (db : DBState) :
    applyWrites ws (applyWrites ws db) = applyWrites ws db := by
  funext n
  by_cases hm : n ∈ ws.map Prod.fst
  · exact applyWrites_mem_indep ws (applyWrites ws db) db n hm
  · rw [applyWrites_not_mem ws _ n hm]

/-- If the daily-adjusted fetch fails, the whole write trace fails with that
provider error. -/
lemma writeTrace_error_historical (p : Provider) (sd : StockData) (e : ProviderError)
    (h : (p sd.tsKey sd.ticker).historical = .error e) :
    sd.writeTrace p = .error (.providerError e) := by
  have hh : sd.get_historical_data p = .error (.providerError e) := by
    unfold StockData.get_historical_data
    rw [h]
  unfold StockData.writeTrace
  simp [hh]

/-- If any of the four fundamentals fetches fails, `get_fundamental_data`
fails. -/
lemma get_fundamental_data_error_of_fetch_error (p : Provider) (sd : StockData)
    (h : (∃ e, (p sd.fdKey sd.ticker).overview = .error e) ∨
         (∃ e, (p sd.fdKey sd.ticker).balanceSheet = .error e) ∨
         (∃ e, (p sd.fdKey sd.ticker).incomeStatement = .error e) ∨
         (∃ e, (p sd.fdKey sd.ticker).cashFlow = .error e)) :
    ∃ e, sd.get_fundamental_data p = .error e := by
  unfold StockData.get_fundamental_data
  rcases ho : (p sd.fdKey sd.ticker).overview with e2 | o
  · exact ⟨e2, by simp⟩
  · rcases hb : (p sd.fdKey sd.ticker).balanceSheet with e2 | b
    · exact ⟨e2, by simp⟩
    · rcases hi : (p sd.fdKey sd.ticker).incomeStatement with e2 | i
      · exact ⟨e2, by simp⟩
      · rcases hc : (p sd.fdKey sd.ticker).cashFlow with e2 | c
        · exact ⟨e2, by simp⟩
        · rcases h with ⟨e, he⟩ | ⟨e, he⟩ | ⟨e, he⟩ | ⟨e, he⟩ <;>
            simp_all

/-- If any of the five fetches fails, the write trace fails. -/
lemma writeTrace_error_of_fetch_error (p : Provider) (sd : StockData)
    (h : (∃ e, (p sd.tsKey sd.ticker).historical = .error e) ∨
         (∃ e, (p sd.fdKey sd.ticker).overview = .error e) ∨
         (∃ e, (p sd.fdKey sd.ticker).balanceSheet = .error e) ∨
         (∃ e, (p sd.fdKey sd.ticker).incomeStatement = .error e) ∨
         (∃ e, (p sd.fdKey sd.ticker).cashFlow = .error e)) :
    ∃ e, sd.writeTrace p = .error e := by
  rcases h with ⟨e, he⟩ | h
  · exact ⟨_, writeTrace_error_historical p sd e he⟩
  · obtain ⟨e2, hf⟩ := get_fundamental_data_error_of_fetch_error p sd h
    unfold StockData.writeTrace
    rcases hh : sd.get_historical_data p with e3 | hd
    · exact ⟨e3, by simp⟩
    · exact ⟨.providerError e2, by simp [hf]⟩

/-- A failed trace leaves the database untouched and surfaces the error. -/
lemma save_to_database_of_trace_error (p : Provider) (sd : StockData)
    (conn_str : String) (db : DBState) (e : DataError)
    (h : sd.writeTrace p = .error e) :
    sd.save_to_database p conn_str db = (db, some e) := by
  unfold StockData.save_to_database
  simp [h]

/-- A successful trace comes from successful fetches and lists exactly the
five writes of `save_to_database` in program order. -/
lemma writeTrace_ok_elim (p : Provider) (sd : StockData) (ws : List (String × DF))
    (h : sd.writeTrace p = .ok ws) :
    ∃ hd o b i c, sd.get_historical_data p = .ok hd ∧
      sd.get_fundamental_data p = .ok (o, b, i, c) ∧
      ws = [("historical_data", hd), ("microsoft", o), ("balance_sheet_data", b),
            ("income_statement_data", i), ("cash_flow_data", c)] := by
  unfold StockData.writeTrace at h
  rcases hh : sd.get_historical_data p with e | hd
  · rw [hh] at h
    cases h
  · rw [hh] at h
    rcases hf : sd.get_fundamental_data p with e | ⟨o, b, i, c⟩
    · rw [hf] at h
      cases h
    · rw [hf] at h
      refine ⟨hd, o, b, i, c, rfl, rfl, ?_⟩
      cases h
      rfl

/-- Adding keys that are already all present changes nothing. -/
lemma addKeys_of_subset (a ks : List String) (h : ∀ k ∈ ks, k ∈ a) :
    addKeys a ks = a := by
  induction ks generalizing a with
  | nil => rfl
  | cons k ks ih =>
    simp only [addKeys, List.foldl_cons]
    rw [if_pos (h k (List.mem_cons_self k ks))]
    exact ih a (fun x hx => h x (List.mem_cons_of_mem k hx))

/-- Adding fresh, pairwise-distinct keys appends them in order. -/
lemma addKeys_of_disjoint (ks : List String) (hnd : ks.Nodup) :
    ∀ a : List String, (∀ k ∈ ks, k ∉ a) → addKeys a ks = a ++ ks := by
  induction ks with
  | nil => intro a _; simp [addKeys]
  | cons k ks ih =>
    intro a h
    rw [List.nodup_cons] at hnd
    simp only [addKeys, List.foldl_cons]
    rw [if_neg (h k (List.mem_cons_self k ks))]
    have hdisj : ∀ x ∈ ks, x ∉ a ++ [k] := by
      intro x hx
      simp only [List.mem_append, List.mem_singleton, not_or]
      exact ⟨h x (List.mem_cons_of_mem k hx), fun he => hnd.1 (he ▸ hx)⟩
    have := ih hnd.2 (a ++ [k]) hdisj
    simpa [List.append_assoc] using this

/-- Folding records whose keys are exactly `ks` over an accumulator already
equal to `ks` leaves it unchanged. -/
lemma foldl_addKeys_const (ks : List String) (rs : List Record)
    (h : ∀ r ∈ rs, r.map Prod.fst = ks) :
    rs.foldl (fun a r => addKeys a (r.map Prod.fst)) ks = ks := by
  induction rs with
  | nil => rfl
  | cons r rs ih =>
    simp only [List.foldl_cons]
    rw [h r (List.mem_cons_self r rs), addKeys_of_subset ks ks (fun k hk => hk)]
    exact ih (fun x hx => h x (List.mem_cons_of_mem r hx))

/-- When every record carries the same distinct keys, the column set of
`from_records` is exactly that key list. -/
lemma keysUnion_of_uniform (ks : List String) (rs : List Record) (hnd : ks.Nodup)
    (h : ∀ r ∈ rs, r.map Prod.fst = ks) (hne : rs ≠ []) : keysUnion rs = ks := by
  cases rs with
  | nil => exact absurd rfl hne
  | cons r rs =>
    unfold keysUnion
    simp only [List.foldl_cons]
    rw [h r (List.mem_cons_self r rs),
      addKeys_of_disjoint ks hnd [] (by simp), List.nil_append]
    exact foldl_addKeys_const ks rs (fun x hx => h x (List.mem_cons_of_mem r hx))

/-! ## Claim theorems -/

/-- C1 (amended): for every daily-adjusted response with exactly eight
positional columns carrying pairwise-distinct labels and a date index,
`get_historical_data` returns a table whose column names are exactly
`[date, open, high, low, close, adjusted_close, volume, dividend_amount,
split_coefficient]` in that order, regardless of what the labels are, with
the response's date index turned into the explicit first column. -/
theorem get_historical_data_schema (p : Provider) (sd : StockData) (raw : DF)
    (hfetch : (p sd.tsKey sd.ticker).historical = .ok raw)
    (hlen : raw.cols.length = 8)
    (hnd : (raw.cols.map Prod.fst).Nodup)
    (hidx : raw.indexName = some "date") :
    ∃ out, sd.get_historical_data p = .ok out ∧
      out.cols.map Prod.fst =
        ["date", "open", "high", "low", "close", "adjusted_close", "volume",
         "dividend_amount", "split_coefficient"] ∧
      out.cols.head? = some ("date", raw.index) := by
  have hred : sd.get_historical_data p = shapeHistorical raw := by
    unfold StockData.get_historical_data
    rw [hfetch]
  have htake : (raw.cols.map Prod.fst).take 8 = raw.cols.map Prod.fst := by
    have h8 : (raw.cols.map Prod.fst).length = 8 := by simp [hlen]
    rw [← h8, List.take_length]
  have hnames : (renameCols (renameMap raw) raw).cols.map Prod.fst = histTargets := by
    unfold renameCols renameMap
    simp only [List.map_map]
    rw [htake]
    have hcomp : (Prod.fst ∘ fun c : String × List Value =>
        (dictGet ((raw.cols.map Prod.fst).zip histTargets) c.1, c.2)) =
        (dictGet ((raw.cols.map Prod.fst).zip histTargets)) ∘ Prod.fst := rfl
    rw [hcomp, ← List.map_map,
      dictGet_zip (raw.cols.map Prod.fst) histTargets hnd (by simp [hlen, histTargets])]
  have hidx2 : (renameCols (renameMap raw) raw).indexName = raw.indexName := rfl
  have hnocol : raw.indexName.getD "index" ∉
      (renameCols (renameMap raw) raw).cols.map Prod.fst := by
    rw [hidx, hnames]
    decide
  refine ⟨{ indexName := none,
            index := (List.range (renameCols (renameMap raw) raw).nRows).map
              (fun i => Value.num (Int.ofNat i)),
            cols := (raw.indexName.getD "index", raw.index) ::
              (renameCols (renameMap raw) raw).cols }, ?_, ?_, ?_⟩
  · rw [hred]
    unfold shapeHistorical
    rw [if_neg (by omega)]
    unfold resetIndex
    rw [hidx2, if_neg hnocol]
    rfl
  · simp only [List.map_cons, hidx, Option.getD_some, hnames]
    rfl
  · simp [hidx]

/-- C1, witness: the schema theorem applied to the provider-shaped
eight-column response `raw8`. -/
theorem get_historical_data_schema_witness :
    ∃ out, sd0.get_historical_data pOK = .ok out ∧
      out.cols.map Prod.fst =
        ["date", "open", "high", "low", "close", "adjusted_close", "volume",
         "dividend_amount", "split_coefficient"] ∧
      out.cols.head? = some ("date", raw8.index) :=
  get_historical_data_schema pOK sd0 raw8 rfl rfl (by decide) rfl

/-- C1, counterexample to the claim as stated: `raw9` has nine positional
columns (at least eight) and a date index, `get_historical_data` succeeds on
it, yet the returned column names are not the nine-name schema — the
duplicated label is renamed twice and the ninth column keeps its label. -/
theorem get_historical_data_schema_counterexample :
    (sd0.get_historical_data p9).map (fun out => out.cols.map Prod.fst) =
      .ok ["date", "high", "high", "low", "close", "adjusted_close", "volume",
           "dividend_amount", "split_coefficient", "i"] ∧
    (["date", "high", "high", "low", "close", "adjusted_close", "volume",
      "dividend_amount", "split_coefficient", "i"] : List String) ≠
      ["date", "open", "high", "low", "close", "adjusted_close", "volume",
       "dividend_amount", "split_coefficient"] ∧
    8 ≤ raw9.cols.length ∧ raw9.indexName = some "date" :=
  ⟨rfl, by decide, by decide, rfl⟩

/-- C2 (amended): when the fetched daily-adjusted response has fewer than
eight columns, `get_historical_data` fails with the malformed-response error
(the `IndexError` of the positional column access) instead of returning a
truncated table, and that error occurs exactly then; but it is not the
shaping step's only failure path: a shaping error is either the
malformed-response error or the `ValueError` that `reset_index` raises when
the column it inserts (named after the index) collides with a post-rename
column label, and with at least eight columns and no such collision shaping
succeeds. -/
theorem get_historical_data_failure_paths (p : Provider) (sd : StockData) (raw : DF)
    (hfetch : (p sd.tsKey sd.ticker).historical = .ok raw) :
    (raw.cols.length < 8 →
      sd.get_historical_data p = .error DataError.malformedResponse) ∧
    (sd.get_historical_data p = .error DataError.malformedResponse →
      raw.cols.length < 8) ∧
    (∀ e, sd.get_historical_data p = .error e →
      e = DataError.malformedResponse ∨ e = DataError.valueError) ∧
    (8 ≤ raw.cols.length →
      raw.indexName.getD "index" ∉
        (renameCols (renameMap raw) raw).cols.map Prod.fst →
      ∃ out, sd.get_historical_data p = .ok out) := by
  have hred : sd.get_historical_data p = shapeHistorical raw := by
    unfold StockData.get_historical_data
    rw [hfetch]
  rw [hred]
  unfold shapeHistorical
  have hidx2 : (renameCols (renameMap raw) raw).indexName = raw.indexName := rfl
  by_cases h8 : raw.cols.length < 8
  · rw [if_pos h8]
    refine ⟨fun _ => rfl, fun _ => h8, fun e he => ?_, fun h _ => absurd h (not_le.mpr h8)⟩
    cases he
    exact Or.inl rfl
  · rw [if_neg h8]
    unfold resetIndex
    rw [hidx2]
    by_cases hc : raw.indexName.getD "index" ∈
        (renameCols (renameMap raw) raw).cols.map Prod.fst
    · rw [if_pos hc]
      refine ⟨fun h => absurd h h8, fun he => ?_, fun e he => ?_, fun _ hnc => absurd hc hnc⟩
      · simp at he
      · cases he
        exact Or.inr rfl
    · rw [if_neg hc]
      refine ⟨fun h => absurd h h8, fun he => ?_, fun e he => ?_, fun _ _ => ⟨_, rfl⟩⟩
      · exact absurd he (by simp)
      · exact absurd he (by simp)

/-- C2, witness: on the two-column response `rawShort` the fetch succeeds and
shaping fails with the malformed-response error. -/
theorem get_historical_data_failure_paths_witness :
    sd0.get_historical_data pShort = .error DataError.malformedResponse :=
  (get_historical_data_failure_paths pShort sd0 rawShort rfl).1 (by decide)

/-- C2, counterexample to the claim as stated: `rawDate9` has nine positional
columns, so the positional accesses succeed, yet `get_historical_data` fails —
with the `reset_index` name-collision `ValueError`, not the malformed-response
error — because the ninth column keeps its label `date`, which collides with
the column inserted for the date index.  The index-out-of-range error is
therefore not the shaping step's only failure path. -/
theorem get_historical_data_failure_paths_counterexample :
    sd0.get_historical_data pDate9 = .error DataError.valueError ∧
    DataError.valueError ≠ DataError.malformedResponse ∧
    8 ≤ rawDate9.cols.length ∧ rawDate9.indexName = some "date" :=
  ⟨rfl, by decide, by decide, rfl⟩

/-- C3 (confirmed): for any fixed fetch results, running `save_to_database`
twice in succession leaves every destination table in the same state as
running it once — each write fully replaces the destination table's contents,
so the second run rewrites exactly what the first wrote. -/
theorem save_to_database_idempotent (p : Provider) (sd : StockData)
    (conn_str : String) (db : DBState) :
    (sd.save_to_database p conn_str (sd.save_to_database p conn_str db).1).1 =
      (sd.save_to_database p conn_str db).1 := by
  unfold StockData.save_to_database
  cases h : sd.writeTrace p with
  | error e => simp
  | ok ws => simpa using applyWrites_self ws db

/-- C4 (confirmed): when a provider fetch fails, the destination table whose
data depended on that call is not written — its contents are exactly the prior
ones — and the error propagates to the caller uncaught (the result carries the
error; nothing is retried or recovered internally). -/
theorem save_to_database_no_write_for_failed_fetch (p : Provider) (sd : StockData)
    (conn_str : String) (db : DBState) :
    (∀ e, (p sd.tsKey sd.ticker).historical = .error e →
      (sd.save_to_database p conn_str db).1 "historical_data" = db "historical_data" ∧
      (sd.save_to_database p conn_str db).2 = some (.providerError e)) ∧
    (∀ e, (p sd.fdKey sd.ticker).overview = .error e →
      (sd.save_to_database p conn_str db).1 "microsoft" = db "microsoft" ∧
      (sd.save_to_database p conn_str db).2.isSome = true) ∧
    (∀ e, (p sd.fdKey sd.ticker).balanceSheet = .error e →
      (sd.save_to_database p conn_str db).1 "balance_sheet_data" = db "balance_sheet_data" ∧
      (sd.save_to_database p conn_str db).2.isSome = true) ∧
    (∀ e, (p sd.fdKey sd.ticker).incomeStatement = .error e →
      (sd.save_to_database p conn_str db).1 "income_statement_data" = db "income_statement_data" ∧
      (sd.save_to_database p conn_str db).2.isSome = true) ∧
    (∀ e, (p sd.fdKey sd.ticker).cashFlow = .error e →
      (sd.save_to_database p conn_str db).1 "cash_flow_data" = db "cash_flow_data" ∧
      (sd.save_to_database p conn_str db).2.isSome = true) := by
  refine ⟨fun e he => ?_, fun e he => ?_, fun e he => ?_, fun e he => ?_, fun e he => ?_⟩
  · rw [save_to_database_of_trace_error p sd conn_str db _
      (writeTrace_error_historical p sd e he)]
    exact ⟨rfl, rfl⟩
  · obtain ⟨e2, ht⟩ := writeTrace_error_of_fetch_error p sd (Or.inr (Or.inl ⟨e, he⟩))
    rw [save_to_database_of_trace_error p sd conn_str db e2 ht]
    exact ⟨rfl, rfl⟩
  · obtain ⟨e2, ht⟩ := writeTrace_error_of_fetch_error p sd
      (Or.inr (Or.inr (Or.inl ⟨e, he⟩)))
    rw [save_to_database_of_trace_error p sd conn_str db e2 ht]
    exact ⟨rfl, rfl⟩
  · obtain ⟨e2, ht⟩ := writeTrace_error_of_fetch_error p sd
      (Or.inr (Or.inr (Or.inr (Or.inl ⟨e, he⟩))))
    rw [save_to_database_of_trace_error p sd conn_str db e2 ht]
    exact ⟨rfl, rfl⟩
  · obtain ⟨e2, ht⟩ := writeTrace_error_of_fetch_error p sd
      (Or.inr (Or.inr (Or.inr (Or.inr ⟨e, he⟩))))
    rw [save_to_database_of_trace_error p sd conn_str db e2 ht]
    exact ⟨rfl, rfl⟩

/-- C4, witness: with a failing overview call, the overview destination table
keeps its prior (absent) contents and an error is surfaced. -/
theorem save_to_database_no_write_for_failed_fetch_witness :
    (sd0.save_to_database pOvErr "postgresql://localhost/demo" db0).1 "microsoft" =
      db0 "microsoft" ∧
    (sd0.save_to_database pOvErr "postgresql://localhost/demo" db0).2.isSome = true :=
  (save_to_database_no_write_for_failed_fetch pOvErr sd0
    "postgresql://localhost/demo" db0).2.1 ⟨"invalid symbol"⟩ rfl

/-- C5 (confirmed): all five fetches complete before the first write is
issued, so when any of them fails, zero destination tables are written — the
entire database state is unchanged — and the error is surfaced; this is
strictly stronger than allowing earlier tables to have been committed. -/
theorem save_to_database_all_fetches_before_writes (p : Provider) (sd : StockData)
    (conn_str : String) (db : DBState)
    (h : (∃ e, (p sd.tsKey sd.ticker).historical = .error e) ∨
         (∃ e, (p sd.fdKey sd.ticker).overview = .error e) ∨
         (∃ e, (p sd.fdKey sd.ticker).balanceSheet = .error e) ∨
         (∃ e, (p sd.fdKey sd.ticker).incomeStatement = .error e) ∨
         (∃ e, (p sd.fdKey sd.ticker).cashFlow = .error e)) :
    (∀ n, (sd.save_to_database p conn_str db).1 n = db n) ∧
    (sd.save_to_database p conn_str db).2.isSome = true := by
  obtain ⟨e, ht⟩ := writeTrace_error_of_fetch_error p sd h
  rw [save_to_database_of_trace_error p sd conn_str db e ht]
  exact ⟨fun n => rfl, rfl⟩

/-- C5, witness: with a failing daily-adjusted call, even the last-written
destination table is untouched and an error is surfaced. -/
theorem save_to_database_all_fetches_before_writes_witness :
    (sd0.save_to_database pHistErr "postgresql://localhost/demo" db0).1 "cash_flow_data" =
      db0 "cash_flow_data" ∧
    (sd0.save_to_database pHistErr "postgresql://localhost/demo" db0).2.isSome = true :=
  ⟨(save_to_database_all_fetches_before_writes pHistErr sd0
      "postgresql://localhost/demo" db0
      (Or.inl ⟨⟨"rate limit exceeded"⟩, rfl⟩)).1 "cash_flow_data",
   (save_to_database_all_fetches_before_writes pHistErr sd0
      "postgresql://localhost/demo" db0
      (Or.inl ⟨⟨"rate limit exceeded"⟩, rfl⟩)).2⟩

/-- C6 (confirmed): a successful run issues exactly five writes in the fixed
order `historical_data`, `microsoft` (overview), `balance_sheet_data`,
`income_statement_data`, `cash_flow_data` — the historical table first — and
the writes are not wrapped in a transaction: if the run stops after the first
`k` writes, the first `k` destination tables hold the new contents while the
remaining ones keep their prior contents. -/
theorem save_to_database_write_order (p : Provider) (sd : StockData)
    (ws : List (String × DF)) (h : sd.writeTrace p = .ok ws) :
    ws.map Prod.fst = tableNames ∧
    ∀ k, k ≤ 5 → ∀ db : DBState,
      (∀ q ∈ ws.take k, applyWrites (ws.take k) db q.1 = some q.2) ∧
      (∀ q ∈ ws.drop k, applyWrites (ws.take k) db q.1 = db q.1) := by
  obtain ⟨hd, o, b, i, c, _, _, rfl⟩ := writeTrace_ok_elim p sd ws h
  refine ⟨rfl, ?_⟩
  intro k hk db
  interval_cases k <;>
    refine ⟨fun q hq => ?_, fun q hq => ?_⟩ <;>
    fin_cases hq <;>
    simp [applyWrites, write]

/-- C6, witness: the trace of a successful run lists the five fixed names in
order, and stopping after two writes leaves the third table untouched. -/
theorem save_to_database_write_order_witness :
    ws0.map Prod.fst = tableNames ∧
    applyWrites (ws0.take 2) db0 "balance_sheet_data" = db0 "balance_sheet_data" :=
  ⟨(save_to_database_write_order pOK sd0 ws0 rfl).1,
   ((save_to_database_write_order pOK sd0 ws0 rfl).2 2 (by decide) db0).2
     ("balance_sheet_data", fromRecords bs4) (by decide)⟩

/-- C7 (confirmed): the five destination table names are fixed constants,
independent of the ticker (and of the ambient credentials), so runs for two
different tickers write the very same five tables; moreover the contents
written to those names do not depend on the prior database state, so the
second run overwrites the first's tables. -/
theorem save_to_database_table_names_fixed (p : Provider)
    (keys1 keys2 : KeysModule) (t1 t2 : String) (ws1 ws2 : List (String × DF))
    (h1 : (StockData.of keys1 t1).writeTrace p = .ok ws1)
    (h2 : (StockData.of keys2 t2).writeTrace p = .ok ws2) :
    ws1.map Prod.fst = tableNames ∧ ws2.map Prod.fst = tableNames ∧
    tableNames.length = 5 ∧
    ∀ n ∈ tableNames, ∀ db db' : DBState,
      applyWrites ws2 db n = applyWrites ws2 db' n := by
  obtain ⟨hd1, o1, b1, i1, c1, _, _, rfl⟩ := writeTrace_ok_elim p _ ws1 h1
  obtain ⟨hd2, o2, b2, i2, c2, _, _, rfl⟩ := writeTrace_ok_elim p _ ws2 h2
  refine ⟨rfl, rfl, rfl, fun n hn db db' => ?_⟩
  exact applyWrites_mem_indep _ db db' n (by simpa [tableNames] using hn)

/-- C7, witness: runs for the tickers MSFT and AAPL (under different ambient
credentials) produce traces naming the same five fixed tables. -/
theorem save_to_database_table_names_fixed_witness :
    ws0.map Prod.fst = tableNames ∧ tableNames.length = 5 :=
  ⟨(save_to_database_table_names_fixed pOK demoKeys otherKeys "MSFT" "AAPL"
      ws0 ws0 rfl rfl).1,
   (save_to_database_table_names_fixed pOK demoKeys otherKeys "MSFT" "AAPL"
      ws0 ws0 rfl rfl).2.2.1⟩

/-- C8 (confirmed): for every ticker — including tickers of other
companies — the company-overview frame is written under the literal constant
destination name `microsoft` (the second write of the trace). -/
theorem overview_table_hardcoded_microsoft (p : Provider) (keys : KeysModule)
    (t : String) (ws : List (String × DF))
    (h : (StockData.of keys t).writeTrace p = .ok ws) :
    ∃ hd o b i c, (StockData.of keys t).get_fundamental_data p = .ok (o, b, i, c) ∧
      (StockData.of keys t).get_historical_data p = .ok hd ∧
      ws.getD 1 default = ("microsoft", o) ∧
      (ws.map Prod.fst).getD 1 "" = "microsoft" := by
  obtain ⟨hd, o, b, i, c, hh, hf, rfl⟩ := writeTrace_ok_elim p _ ws h
  exact ⟨hd, o, b, i, c, hf, hh, rfl, rfl⟩

/-- C8, witness: a run for the ticker AAPL still writes its overview frame to
the table named `microsoft`. -/
theorem overview_table_hardcoded_microsoft_witness :
    ∃ hd o b i c,
      (StockData.of demoKeys "AAPL").get_fundamental_data pOK = .ok (o, b, i, c) ∧
      (StockData.of demoKeys "AAPL").get_historical_data pOK = .ok hd ∧
      ws0.getD 1 default = ("microsoft", o) ∧
      (ws0.map Prod.fst).getD 1 "" = "microsoft" :=
  overview_table_hardcoded_microsoft pOK demoKeys "AAPL" ws0 rfl

/-- C9 (confirmed): when the overview endpoint returns a single nested record
and the quarterly balance-sheet endpoint returns four quarterly records (each
carrying the same distinct keys), `get_fundamental_data` returns an overview
table with exactly one row whose columns are the record's keys, and a
balance-sheet table with exactly four rows — one per reporting quarter — whose
columns are the records' keys. -/
theorem get_fundamental_data_shape (p : Provider) (sd : StockData)
    (o : Record) (bs is0 cf0 : List Record) (ks : List String)
    (ho : (p sd.fdKey sd.ticker).overview = .ok o)
    (hb : (p sd.fdKey sd.ticker).balanceSheet = .ok bs)
    (hi : (p sd.fdKey sd.ticker).incomeStatement = .ok is0)
    (hc : (p sd.fdKey sd.ticker).cashFlow = .ok cf0)
    (hlen : bs.length = 4)
    (hks : ∀ r ∈ bs, r.map Prod.fst = ks)
    (hnd : ks.Nodup) :
    sd.get_fundamental_data p =
      .ok (dfSingleRow o, fromRecords bs, fromRecords is0, fromRecords cf0) ∧
    (dfSingleRow o).nRows = 1 ∧
    (dfSingleRow o).cols.map Prod.fst = o.map Prod.fst ∧
    (fromRecords bs).nRows = 4 ∧
    (fromRecords bs).cols.map Prod.fst = ks := by
  refine ⟨?_, rfl, ?_, ?_, ?_⟩
  · unfold StockData.get_fundamental_data
    simp [ho, hb, hi, hc]
  · simp [dfSingleRow, List.map_map]
  · simp [fromRecords, DF.nRows, hlen]
  · simp only [fromRecords, List.map_map]
    have hcomp : (Prod.fst ∘ fun k =>
        (k, bs.map (fun r => ((r : Record).lookup k).getD Value.nan))) = id := rfl
    rw [hcomp, List.map_id]
    exact keysUnion_of_uniform ks bs hnd hks
      (fun h0 => by rw [h0] at hlen; cases hlen)

/-- C9, witness: the shape theorem applied to the single-record overview `o0`
and the four-quarter balance sheet `bs4`. -/
theorem get_fundamental_data_shape_witness :
    sd0.get_fundamental_data pOK =
      .ok (dfSingleRow o0, fromRecords bs4, fromRecords ([] : List Record),
           fromRecords ([] : List Record)) ∧
    (dfSingleRow o0).nRows = 1 ∧
    (dfSingleRow o0).cols.map Prod.fst = o0.map Prod.fst ∧
    (fromRecords bs4).nRows = 4 ∧
    (fromRecords bs4).cols.map Prod.fst = ["fiscalDateEnding"] :=
  get_fundamental_data_shape pOK sd0 o0 bs4 [] [] ["fiscalDateEnding"]
    rfl rfl rfl rfl rfl (by decide) (by decide)

/-- C10, counterexample to the claim as stated: if construction took the API
key as an external constructor input rather than reading ambient module-level
state, constructing with the same explicit arguments under two different
ambient `keys` modules would yield the same object; it does not. -/
theorem stockdata_init_counterexample :
    StockData.of ⟨"key-one"⟩ "MSFT" ≠ StockData.of ⟨"key-two"⟩ "MSFT" := by
  decide

/-- C10 (amended): construction takes only the ticker symbol as an explicit
input; both client objects draw their API key from the ambient module-level
`keys` state (so construction genuinely depends on that state), and the
database connection string is no constructor input at all — it is supplied
later as a parameter of `save_to_database`. -/
theorem stockdata_init_inputs (keys keys2 : KeysModule) (t : String) :
    (StockData.of keys t).ticker = t ∧
    (StockData.of keys t).tsKey = keys.api_key ∧
    (StockData.of keys t).fdKey = keys.api_key ∧
    (keys.api_key ≠ keys2.api_key → StockData.of keys t ≠ StockData.of keys2 t) := by
  refine ⟨rfl, rfl, rfl, fun hne he => hne ?_⟩
  have := congrArg StockData.tsKey he
  simpa [StockData.of] using this

/-- C10, witness: the amended statement at the sample keys modules and the
hardcoded ticker. -/
theorem stockdata_init_inputs_witness :
    (StockData.of demoKeys "MSFT").ticker = "MSFT" ∧
    StockData.of demoKeys "MSFT" ≠ StockData.of otherKeys "MSFT" :=
  ⟨(stockdata_init_inputs demoKeys otherKeys "MSFT").1,
   (stockdata_init_inputs demoKeys otherKeys "MSFT").2.2.2 (by decide)⟩

end StockPipeline
